import Mathlib

/-!
Verification of the game core of `src/node2/game.c` (TTK4155-Byggern, node 2).

The C module is embedded shallowly: the static module state becomes a
`GameState` record, each C function becomes a pure Lean function from the
old state (plus the values read from the sensor capabilities during the
call) to the new state, and every call into an external capability
(motor, servo, solenoid, ADC, CAN, PID) is recorded as an `Effect` in an
output trace, in the order the C code performs the calls.  Machine
`unsigned int` arithmetic is modelled as `Nat` reduced modulo `2 ^ 32`
exactly where the C code can wrap.
-/

namespace Byggern

/-- Constant `IR_TRESHOLD` from game.c: sensor threshold for the beam-break
failure detector. -/
def IR_TRESHOLD : Nat := 1000

/-- Constant `NUMBER_OF_LIVES` from game.c: the starting life count used by
`game_init`. -/
def NUMBER_OF_LIVES : Nat := 3

/-- PID gain constant `K_P_HARD` from game.c. -/
def K_P_HARD : Nat := 35

/-- PID gain constant `K_I_HARD` from game.c. -/
def K_I_HARD : Nat := 20

/-- PID gain constant `K_D_HARD` from game.c. -/
def K_D_HARD : Nat := 1

/-- PID gain constant `K_P_EXTREME` from game.c. -/
def K_P_EXTREME : Nat := 20

/-- PID gain constant `K_I_EXTREME` from game.c. -/
def K_I_EXTREME : Nat := 10

/-- PID gain constant `K_D_EXTREME` from game.c. -/
def K_D_EXTREME : Nat := 1

/-- PID gain constant `K_P_IMPOSSIBLE` from game.c. -/
def K_P_IMPOSSIBLE : Nat := 40

/-- PID gain constant `K_I_IMPOSSIBLE` from game.c. -/
def K_I_IMPOSSIBLE : Nat := 25

/-- PID gain constant `K_D_IMPOSSIBLE` from game.c. -/
def K_D_IMPOSSIBLE : Nat := 1

/-- Output cap constant `MB_SPEED_HARD` from game.c (0x4FF). -/
def MB_SPEED_HARD : Nat := 0x4FF

/-- Output cap constant `MB_SPEED_EXTREME` from game.c (0x3FF). -/
def MB_SPEED_EXTREME : Nat := 0x3FF

/-- Output cap constant `MB_SPEED_IMPOSSIBLE` from game.c (0x4FF). -/
def MB_SPEED_IMPOSSIBLE : Nat := 0x4FF

/-- Constant `MAX_MOTOR_SPEED` from game.c, passed to `pid_controller_init`. -/
def MAX_MOTOR_SPEED : Nat := 0x4FF

/-- Modulus of the 32-bit `unsigned int` arithmetic of the target (ARM
Cortex-M3, SAM3X): `score`, `lives_left` and `counting_flag` are
`unsigned int` in game.c. -/
def UINT32_MOD : Nat := 2 ^ 32

/-- One `unsigned int` decrement with wrap-around, as `--lives_left`
performs on the 32-bit target: on every representable value it equals
`(n + (2 ^ 32 - 1)) % 2 ^ 32`, as `uint32_dec_eq_mod` proves.  It is
stated in branch form so that proofs involving a symbolic state reduce
without multi-billion-step unary arithmetic. -/
def uint32_dec (n : Nat) : Nat := if n = 0 then UINT32_MOD - 1 else n - 1

/-- Modelled from the spec: `SLIDER_MAX`, the maximum scaled slider value
(`max_slider_value` in the spec).  It is defined in a scaling header that
is missing from src/; the servo mapping `2 * (slider_right - 50)` in
game.c shows the sliders are scaled to the range 0..100. -/
def SLIDER_MAX : Int := 100

/-- Modelled from the spec: `GAME_LIVES_LEFT_ID`, the fixed identifier tag
of the life-lost notification record.  Its numeric value is defined in a
CAN-identifier header missing from src/; the claims only require that it
is one fixed constant, so any fixed value is faithful. -/
def GAME_LIVES_LEFT_ID : Nat := 6

/-- Modelled from the spec: `INITIAL_LIVES`, the configured initial life
count used by `game_reset_lives_left`.  The macro is defined in game.h,
which is missing from src/; the spec states that `reset_lives()` restores
the same configured starting count that `initialize()` establishes, which
game.c names `NUMBER_OF_LIVES`. -/
def INITIAL_LIVES : Nat := NUMBER_OF_LIVES

/-- The C enum `CONTROLLER_SEL` (declared in a header missing from src/).
A C enum value is an integer, so besides the three variants named by
game.c a constructor for any other stored integer value is included;
game.c handles such values through the `default` branch of its switch. -/
inductive CONTROLLER_SEL where
  | SLIDER_POS_CTRL
  | JOYSTICK_SPEED_CTRL
  | MICROBIT_SPEED_CTRL
  | OTHER_CTRL (n : Nat)
deriving DecidableEq, Repr

/-- The C enum `DIFFICULTY` (declared in a header missing from src/).
As for `CONTROLLER_SEL`, a constructor for unrecognized stored integer
values is included; `game_set_difficulty` handles them via `default`. -/
inductive DIFFICULTY where
  | HARD
  | EXTREME
  | IMPOSSIBLE
  | OTHER_DIFFICULTY (n : Nat)
deriving DecidableEq, Repr

/-- The C enum `ACC_DIR` of accelerometer directions (declared in
microbit.h, missing from src/).  game.c names only `ACC_LEFT` and
`ACC_RIGHT`; per the spec any other direction value exists and passes
through the Impossible-difficulty swap unchanged, so the remaining values
are represented by `ACC_OTHER`. -/
inductive ACC_DIR where
  | ACC_LEFT
  | ACC_RIGHT
  | ACC_OTHER (n : Nat)
deriving DecidableEq, Repr

/-- The `struct user_input_data` of game.c: the cached, already-scaled
input snapshot. -/
structure UserInputData where
  joystick_x : Int
  joystick_y : Int
  slider_left : Int
  slider_right : Int
  button_left : Int
  button_right : Int
deriving DecidableEq, Repr

/-- The static module state of game.c: `score`, `lives_left`,
`counting_flag` (all `unsigned int`, kept in 0..2^32), the two selector
enums and the cached input snapshot. -/
structure GameState where
  score : Nat
  lives_left : Nat
  counting_flag : Nat
  controller_select : CONTROLLER_SEL
  difficulty_select : DIFFICULTY
  user_data : UserInputData
deriving DecidableEq, Repr

/-- The values a single tick reads from the sensor capabilities:
`adc_read()` (a `uint16_t` level), `microbit_dir()` and
`microbit_button()`. -/
structure TickInput where
  ir_level : Nat
  mb_direction : ACC_DIR
  mb_button : Int
deriving DecidableEq, Repr

/-- The `CAN_MESSAGE` record game.c constructs for the life-lost
notification: identifier tag, byte count, and the stored data word. -/
structure CAN_MESSAGE where
  id : Nat
  data_length : Nat
  data : Nat
deriving DecidableEq, Repr

/-- One call into an external capability, recorded in program order. -/
inductive Effect where
  | adcInit
  | servoInit
  | motorInit
  | solenoidInit
  | microbitInit
  | timerInit
  | pidInit (p i d cap : Nat)
  | pidSetParameters (p i d : Nat)
  | setMicrobitSpeed (cap : Nat)
  | motorRunSlider (target : Int)
  | motorRunJoystick (speed : Int)
  | motorRunMicrobit (dir : ACC_DIR)
  | servoSetPosition (pos : Int)
  | solenoidRunButton (button : Int)
  | adcRead (level : Nat)
  | canSend (m : CAN_MESSAGE)
deriving DecidableEq, Repr

/-- True for the actuator commands (motor, servo, solenoid). -/
def Effect.isActuation : Effect → Bool
  | .motorRunSlider _ => true
  | .motorRunJoystick _ => true
  | .motorRunMicrobit _ => true
  | .servoSetPosition _ => true
  | .solenoidRunButton _ => true
  | _ => false

/-- True exactly for the CAN notification effect. -/
def Effect.isCanSend : Effect → Bool
  | .canSend _ => true
  | _ => false

/-- Modelled from the spec: the number of bytes the Notification
Capability actually transmits is `data_length` (the CAN transport is
declared in can_controller.h, missing from src/), so the wire payload is
the stored data word truncated to the low `data_length` bytes. -/
def can_sent_bytes (m : CAN_MESSAGE) : Nat := m.data % 256 ^ m.data_length

/-- `game_count_fails` from game.c.  Reads the IR level (passed in here),
returns the C return value (1 on a qualifying failure, 0 otherwise)
paired with the updated state.  The comparisons are exactly those of the
source: strict less-than to latch a failure, strict greater-than to
re-arm, and a level equal to `IR_TRESHOLD` changes nothing. -/
def game_count_fails (ir_level : Nat) (s : GameState) : Nat × GameState :=
  if ir_level < IR_TRESHOLD ∧ s.counting_flag = 0 then
    (1, { s with lives_left := uint32_dec s.lives_left, counting_flag := 1 })
  else if IR_TRESHOLD < ir_level then
    (0, { s with counting_flag := 0 })
  else
    (0, s)

/-- `game_set_controller` from game.c. -/
def game_set_controller (controller : CONTROLLER_SEL) (s : GameState) : GameState :=
  { s with controller_select := controller }

/-- `game_set_difficulty` from game.c: pushes the gain triple and the
output cap of the chosen difficulty to the PID controller and the motor
driver (the `default` branch pushes nothing), then stores the variant. -/
def game_set_difficulty (difficulty : DIFFICULTY) (s : GameState) :
    GameState × List Effect :=
  let effects : List Effect :=
    match difficulty with
    | .HARD =>
        [.pidSetParameters K_P_HARD K_I_HARD K_D_HARD,
         .setMicrobitSpeed MB_SPEED_HARD]
    | .EXTREME =>
        [.pidSetParameters K_P_EXTREME K_I_EXTREME K_D_EXTREME,
         .setMicrobitSpeed MB_SPEED_EXTREME]
    | .IMPOSSIBLE =>
        [.pidSetParameters K_P_IMPOSSIBLE K_I_IMPOSSIBLE K_D_IMPOSSIBLE,
         .setMicrobitSpeed MB_SPEED_IMPOSSIBLE]
    | .OTHER_DIFFICULTY _ => []
  ({ s with difficulty_select := difficulty }, effects)

/-- `game_init` from game.c: resets score and lives, initializes the
external capabilities, applies the Hard gains and cap, and arms the tick
timer.  It does not touch `counting_flag`, `controller_select` or
`difficulty_select`.  The sampling period argument of
`pid_controller_init` is a compile-time float constant and carries no
game-state information, so the recorded effect keeps the gains and the
cap. -/
def game_init (s : GameState) : GameState × List Effect :=
  ({ s with score := 0, lives_left := NUMBER_OF_LIVES },
   [.adcInit, .servoInit, .motorInit,
    .setMicrobitSpeed MB_SPEED_HARD,
    .solenoidInit, .microbitInit,
    .pidInit K_P_HARD K_I_HARD K_D_HARD MAX_MOTOR_SPEED,
    .timerInit])

/-- `game_run` from game.c, the tick handler.  Exactly as in the source:
first the switch over `controller_select` dispatches the actuator
commands of the current mode (the `MICROBIT_SPEED_CTRL` case falls
through into the empty `default`), then `game_count_fails` reads the ADC,
then on a qualifying failure the CAN life-lost record is sent with the
already-decremented `lives_left`, and finally `++score`. -/
def game_run (inp : TickInput) (s : GameState) : GameState × List Effect :=
  let dispatch : List Effect :=
    match s.controller_select with
    | .SLIDER_POS_CTRL =>
        [.motorRunSlider
           (if s.difficulty_select = DIFFICULTY.IMPOSSIBLE then
              SLIDER_MAX - s.user_data.slider_right
            else
              s.user_data.slider_right),
         .servoSetPosition s.user_data.joystick_x,
         .solenoidRunButton s.user_data.button_right]
    | .JOYSTICK_SPEED_CTRL =>
        [.motorRunJoystick
           (if s.difficulty_select = DIFFICULTY.IMPOSSIBLE then
              -s.user_data.joystick_x
            else
              s.user_data.joystick_x),
         .servoSetPosition (2 * (s.user_data.slider_right - 50)),
         .solenoidRunButton s.user_data.button_right]
    | .MICROBIT_SPEED_CTRL =>
        let direction : ACC_DIR :=
          if s.difficulty_select = DIFFICULTY.IMPOSSIBLE then
            if inp.mb_direction = ACC_DIR.ACC_RIGHT then ACC_DIR.ACC_LEFT
            else if inp.mb_direction = ACC_DIR.ACC_LEFT then ACC_DIR.ACC_RIGHT
            else inp.mb_direction
          else inp.mb_direction
        [.motorRunMicrobit direction,
         .servoSetPosition s.user_data.joystick_x,
         .solenoidRunButton inp.mb_button]
    | .OTHER_CTRL _ => []
  let fails := game_count_fails inp.ir_level s
  let notify : List Effect :=
    if fails.1 ≠ 0 then
      [.canSend ⟨GAME_LIVES_LEFT_ID, 1, fails.2.lives_left⟩]
    else []
  ({ fails.2 with score := (fails.2.score + 1) % UINT32_MOD },
   dispatch ++ Effect.adcRead inp.ir_level :: notify)

/-- `game_get_score` from game.c. -/
def game_get_score (s : GameState) : Nat := s.score

/-- `game_reset_score` from game.c. -/
def game_reset_score (s : GameState) : GameState := { s with score := 0 }

/-- `game_reset_lives_left` from game.c. -/
def game_reset_lives_left (s : GameState) : GameState :=
  { s with lives_left := INITIAL_LIVES }

/-- Iterated `game_count_fails` over a sequence of IR levels, one tick at
a time (the state part only). -/
def run_count_fails (levels : List Nat) (s : GameState) : GameState :=
  levels.foldl (fun st lv => (game_count_fails lv st).2) s

/-- One below-threshold run followed by one separating observation: the
ticks of `seg.1` and then the single tick `seg.2`. -/
def run_segment (seg : List Nat × Nat) (s : GameState) : GameState :=
  (game_count_fails seg.2 (run_count_fails seg.1 s)).2

/-- A sequence of below-threshold runs, each terminated by its separating
above-threshold observation. -/
def run_segments (segs : List (List Nat × Nat)) (s : GameState) : GameState :=
  segs.foldl (fun st seg => run_segment seg st) s

/-- A concrete module state used by the witnesses: fresh boot state of
game.c after `game_init` (score 0, three lives, armed detector, the
static initializers `SLIDER_POS_CTRL` and `HARD`) with a snapshot whose
slider sits at 80, joystick at 10 and right button pressed. -/
def sampleState : GameState :=
  { score := 0
    lives_left := 3
    counting_flag := 0
    controller_select := .SLIDER_POS_CTRL
    difficulty_select := .HARD
    user_data :=
      { joystick_x := 10, joystick_y := 0, slider_left := 0,
        slider_right := 80, button_left := 0, button_right := 1 } }

/-! ### Helper lemmas -/

theorem game_count_fails_score (lv : Nat) (s : GameState) :
    (game_count_fails lv s).2.score = s.score := by
  unfold game_count_fails
  split
  · rfl
  · split <;> rfl

theorem count_fails_latched (lv : Nat) (s : GameState)
    (hflag : s.counting_flag ≠ 0) (hle : lv ≤ IR_TRESHOLD) :
    game_count_fails lv s = (0, s) := by
  unfold game_count_fails
  rw [if_neg (fun h => hflag h.2), if_neg (by omega)]

theorem run_count_fails_latched (levels : List Nat) (s : GameState)
    (hflag : s.counting_flag ≠ 0) :
    (∀ lv ∈ levels, lv ≤ IR_TRESHOLD) → run_count_fails levels s = s := by
  induction levels with
  | nil => intro _; rfl
  | cons a as ih =>
    intro hle
    have h1 : game_count_fails a s = (0, s) :=
      count_fails_latched a s hflag (hle a (by simp))
    simp only [run_count_fails, List.foldl_cons]
    rw [h1]
    exact ih fun lv h => hle lv (by simp [h])

theorem run_count_fails_below (levels : List Nat) (s : GameState)
    (hflag : s.counting_flag = 0) (hne : levels ≠ [])
    (hlt : ∀ lv ∈ levels, lv < IR_TRESHOLD) :
    run_count_fails levels s =
      { s with lives_left := uint32_dec s.lives_left, counting_flag := 1 } := by
  cases levels with
  | nil => exact absurd rfl hne
  | cons a as =>
    have h1 : game_count_fails a s =
        (1, { s with lives_left := uint32_dec s.lives_left, counting_flag := 1 }) := by
      unfold game_count_fails
      rw [if_pos ⟨hlt a (by simp), hflag⟩]
    simp only [run_count_fails, List.foldl_cons]
    rw [h1]
    exact run_count_fails_latched as _ (by simp)
      fun lv h => le_of_lt (hlt lv (by simp [h]))

theorem run_segment_armed (seg : List Nat × Nat) (s : GameState)
    (hflag : s.counting_flag = 0) (hne : seg.1 ≠ [])
    (hlt : ∀ lv ∈ seg.1, lv < IR_TRESHOLD) (hsep : IR_TRESHOLD < seg.2) :
    run_segment seg s =
      { s with lives_left := uint32_dec s.lives_left, counting_flag := 0 } := by
  unfold run_segment
  rw [run_count_fails_below seg.1 s hflag hne hlt]
  unfold game_count_fails
  rw [if_neg (by simp), if_pos hsep]

theorem uint32_dec_eq_mod (n : Nat) (h : n < UINT32_MOD) :
    uint32_dec n = (n + (UINT32_MOD - 1)) % UINT32_MOD := by
  have hm : UINT32_MOD = 4294967296 := by norm_num [UINT32_MOD]
  unfold uint32_dec
  rw [hm] at h ⊢
  split <;> omega

theorem uint32_dec_eq_sub_one (n : Nat) (h1 : 1 ≤ n) :
    uint32_dec n = n - 1 := by
  unfold uint32_dec
  rw [if_neg (by omega)]

theorem game_run_fst (inp : TickInput) (s : GameState) :
    (game_run inp s).1 =
      { (game_count_fails inp.ir_level s).2 with
        score := ((game_count_fails inp.ir_level s).2.score + 1) % UINT32_MOD } := rfl

theorem game_run_canSend_filter (inp : TickInput) (s : GameState) :
    (game_run inp s).2.filter Effect.isCanSend =
      if inp.ir_level < IR_TRESHOLD ∧ s.counting_flag = 0 then
        [Effect.canSend ⟨GAME_LIVES_LEFT_ID, 1, uint32_dec s.lives_left⟩]
      else [] := by
  by_cases h1 : inp.ir_level < IR_TRESHOLD ∧ s.counting_flag = 0
  · cases hc : s.controller_select <;>
      simp [game_run, hc, game_count_fails, h1, Effect.isCanSend, List.filter]
  · by_cases h2 : IR_TRESHOLD < inp.ir_level <;>
      cases hc : s.controller_select <;>
        simp [game_run, hc, game_count_fails, h1, h2, Effect.isCanSend, List.filter]

theorem game_count_fails_one_iff (lv : Nat) (s : GameState) :
    (game_count_fails lv s).1 ≠ 0 ↔ lv < IR_TRESHOLD ∧ s.counting_flag = 0 := by
  unfold game_count_fails
  split
  · simp_all
  · split <;> simp_all

theorem game_count_fails_rearm_iff (lv : Nat) (s : GameState) :
    (s.counting_flag ≠ 0 ∧ (game_count_fails lv s).2.counting_flag = 0) ↔
      (s.counting_flag ≠ 0 ∧ IR_TRESHOLD < lv) := by
  unfold game_count_fails
  split
  · simp_all
  · split <;> simp_all

theorem game_count_fails_at_threshold (s : GameState) :
    game_count_fails IR_TRESHOLD s = (0, s) := by
  unfold game_count_fails
  rw [if_neg (by simp), if_neg (by simp)]

/-! ### Claim theorems -/

/-- C5: the failure-detection threshold comparison of `game_count_fails`
is strict in both directions: a tick qualifies as a failure exactly when
the sensor level is strictly below `IR_TRESHOLD` with the detector armed,
a latched detector re-arms exactly when the level is strictly above the
threshold, and a level exactly equal to the threshold returns no failure
and leaves the whole state unchanged. -/
theorem game_count_fails_strict_threshold (lv : Nat) (s : GameState) :
    ((game_count_fails lv s).1 ≠ 0 ↔ lv < IR_TRESHOLD ∧ s.counting_flag = 0) ∧
    ((s.counting_flag ≠ 0 ∧ (game_count_fails lv s).2.counting_flag = 0) ↔
      (s.counting_flag ≠ 0 ∧ IR_TRESHOLD < lv)) ∧
    game_count_fails IR_TRESHOLD s = (0, s) :=
  ⟨game_count_fails_one_iff lv s, game_count_fails_rearm_iff lv s,
   game_count_fails_at_threshold s⟩

/-- C6: for every recognized difficulty value, `game_set_difficulty`
pushes, within the call itself, exactly the constants of the difficulty
table to the actuator capability and stores the variant: Hard gains
(35, 20, 1) with cap 0x4FF, Extreme gains (20, 10, 1) with cap 0x3FF,
Impossible gains (40, 25, 1) with cap 0x4FF. -/
theorem game_set_difficulty_pushes_table (s : GameState) :
    game_set_difficulty DIFFICULTY.HARD s =
      ({ s with difficulty_select := DIFFICULTY.HARD },
       [Effect.pidSetParameters 35 20 1, Effect.setMicrobitSpeed 0x4FF]) ∧
    game_set_difficulty DIFFICULTY.EXTREME s =
      ({ s with difficulty_select := DIFFICULTY.EXTREME },
       [Effect.pidSetParameters 20 10 1, Effect.setMicrobitSpeed 0x3FF]) ∧
    game_set_difficulty DIFFICULTY.IMPOSSIBLE s =
      ({ s with difficulty_select := DIFFICULTY.IMPOSSIBLE },
       [Effect.pidSetParameters 40 25 1, Effect.setMicrobitSpeed 0x4FF]) :=
  ⟨rfl, rfl, rfl⟩

/-- C7: the tick handler sends a CAN record exactly when a qualifying
failure (armed detector, level strictly below threshold) occurs on that
tick; the record is the fixed tag `GAME_LIVES_LEFT_ID` with one data byte
holding the already-decremented lives count, and a tick with the detector
latched or the level at or above the threshold sends nothing. -/
theorem game_run_notification_iff_failure (inp : TickInput) (s : GameState) :
    (game_run inp s).2.filter Effect.isCanSend =
      (if inp.ir_level < IR_TRESHOLD ∧ s.counting_flag = 0 then
        [Effect.canSend ⟨GAME_LIVES_LEFT_ID, 1, uint32_dec s.lives_left⟩]
      else []) ∧
    ((game_count_fails inp.ir_level s).1 ≠ 0 ↔
      inp.ir_level < IR_TRESHOLD ∧ s.counting_flag = 0) :=
  ⟨game_run_canSend_filter inp s, game_count_fails_one_iff inp.ir_level s⟩

/-- C8: `game_reset_score` zeroes the score from any prior state, and
`game_reset_lives_left` restores exactly the starting life count that
`game_init` establishes. -/
theorem game_reset_score_and_lives (s t : GameState) :
    (game_reset_score s).score = 0 ∧
    (game_reset_lives_left s).lives_left = (game_init t).1.lives_left ∧
    (game_reset_lives_left s).lives_left = INITIAL_LIVES :=
  ⟨rfl, rfl, rfl⟩

/-- C1: with the detector armed, processing any sequence of nonempty
below-threshold runs, each separated from the next by an above-threshold
observation, decrements `lives_left` exactly once per run — the total
loss equals the number of runs, never more than one per continuous
below-threshold interval — and leaves the detector armed again. -/
theorem game_lives_one_loss_per_below_run
    (segs : List (List Nat × Nat)) (s : GameState)
    (hflag : s.counting_flag = 0)
    (hsegs : ∀ seg ∈ segs, seg.1 ≠ [] ∧ (∀ lv ∈ seg.1, lv < IR_TRESHOLD) ∧
      IR_TRESHOLD < seg.2)
    (hlives : segs.length ≤ s.lives_left) :
    (run_segments segs s).lives_left = s.lives_left - segs.length ∧
    (run_segments segs s).counting_flag = 0 := by
  induction segs generalizing s with
  | nil => exact ⟨by simp [run_segments], hflag⟩
  | cons seg rest ih =>
    obtain ⟨hne, hlt, hsep⟩ := hsegs seg (by simp)
    have hstep := run_segment_armed seg s hflag hne hlt hsep
    have hlen : rest.length + 1 ≤ s.lives_left := by simpa using hlives
    have hdec : uint32_dec s.lives_left = s.lives_left - 1 :=
      uint32_dec_eq_sub_one s.lives_left (by omega)
    have hrun : run_segments (seg :: rest) s =
        run_segments rest (run_segment seg s) := rfl
    rw [hrun, hstep]
    have hres := ih { s with lives_left := uint32_dec s.lives_left, counting_flag := 0 }
      rfl (fun sg h => hsegs sg (by simp [h]))
      (by show rest.length ≤ uint32_dec s.lives_left; omega)
    refine ⟨?_, hres.2⟩
    rw [hres.1]
    show uint32_dec s.lives_left - rest.length = s.lives_left - (seg :: rest).length
    simp only [List.length_cons]
    omega

/-- Witness for C1: two below-threshold runs, each followed by an
above-threshold observation, take the fresh three-lives armed state to
exactly one life lost per run. -/
theorem game_lives_one_loss_per_below_run_witness :
    (run_segments [([500, 300], 1500), ([999], 1001)] sampleState).lives_left =
      sampleState.lives_left - 2 ∧
    (run_segments [([500, 300], 1500), ([999], 1001)] sampleState).counting_flag = 0 := by
  have h := game_lives_one_loss_per_below_run [([500, 300], 1500), ([999], 1001)]
    sampleState rfl (by decide) (by decide)
  simpa using h

/-- C2: every tick increments the score by exactly one (as the 32-bit
counter of the source), independent of the failure-detection outcome,
difficulty and control mode; the lives are updated by the failure
detector on every tick; and with an unrecognized mode value the tick
commands no actuation — its trace holds only the sensor read and possibly
the notification — while detection and the score increment still run. -/
theorem game_run_score_increments_unconditionally (inp : TickInput) (s : GameState) :
    (game_run inp s).1.score = (s.score + 1) % UINT32_MOD ∧
    (game_run inp s).1.lives_left = (game_count_fails inp.ir_level s).2.lives_left ∧
    ∀ n, ∀ e ∈ (game_run inp
        { s with controller_select := CONTROLLER_SEL.OTHER_CTRL n }).2,
      e = Effect.adcRead inp.ir_level ∨ ∃ m, e = Effect.canSend m := by
  refine ⟨?_, ?_, ?_⟩
  · rw [game_run_fst]
    simp [game_count_fails_score]
  · rw [game_run_fst]
  · intro n e he
    simp only [game_run, List.nil_append] at he
    rcases List.mem_cons.mp he with h | h
    · exact Or.inl h
    · right
      split at h
      · simp at h
        exact ⟨_, h⟩
      · simp at h

/-- C9: `lives_left` has no floor at zero: a qualifying failure with zero
lives wraps the 32-bit decrement around to 2 ^ 32 - 1 (equal to the
modular form of the machine decrement), the notification of that tick
carries the wrapped value, its single transmitted payload byte is 255,
and nothing in the core prevents the underflow. -/
theorem game_lives_underflow_wraps (inp : TickInput) (s : GameState)
    (h0 : s.lives_left = 0) (harm : s.counting_flag = 0)
    (hlow : inp.ir_level < IR_TRESHOLD) :
    (game_run inp s).1.lives_left = UINT32_MOD - 1 ∧
    (game_run inp s).1.lives_left = (0 + (UINT32_MOD - 1)) % UINT32_MOD ∧
    (game_run inp s).2.filter Effect.isCanSend =
      [Effect.canSend ⟨GAME_LIVES_LEFT_ID, 1, UINT32_MOD - 1⟩] ∧
    can_sent_bytes ⟨GAME_LIVES_LEFT_ID, 1, UINT32_MOD - 1⟩ = 255 := by
  have hc : game_count_fails inp.ir_level s =
      (1, { s with lives_left := uint32_dec s.lives_left, counting_flag := 1 }) := by
    unfold game_count_fails
    rw [if_pos ⟨hlow, harm⟩]
  have hdec : uint32_dec s.lives_left = UINT32_MOD - 1 := by
    rw [h0]
    rfl
  have hlife : (game_run inp s).1.lives_left = UINT32_MOD - 1 := by
    rw [game_run_fst, hc]
    exact hdec
  refine ⟨hlife, ?_, ?_, ?_⟩
  · rw [hlife]
    decide
  · rw [game_run_canSend_filter, if_pos ⟨hlow, harm⟩, hdec]
  · decide

/-- Witness for C9: a below-threshold tick on an armed state with zero
lives shows the wrap to 4294967295 and the 255 payload byte. -/
theorem game_lives_underflow_wraps_witness :
    (game_run ⟨500, ACC_DIR.ACC_OTHER 0, 0⟩
      { sampleState with lives_left := 0 }).1.lives_left = UINT32_MOD - 1 ∧
    (game_run ⟨500, ACC_DIR.ACC_OTHER 0, 0⟩
      { sampleState with lives_left := 0 }).1.lives_left =
      (0 + (UINT32_MOD - 1)) % UINT32_MOD ∧
    (game_run ⟨500, ACC_DIR.ACC_OTHER 0, 0⟩
      { sampleState with lives_left := 0 }).2.filter Effect.isCanSend =
      [Effect.canSend ⟨GAME_LIVES_LEFT_ID, 1, UINT32_MOD - 1⟩] ∧
    can_sent_bytes ⟨GAME_LIVES_LEFT_ID, 1, UINT32_MOD - 1⟩ = 255 :=
  game_lives_underflow_wraps ⟨500, ACC_DIR.ACC_OTHER 0, 0⟩
    { sampleState with lives_left := 0 } rfl rfl (by decide)

/-- C10: `game_init` resets score and lives but leaves the
failure-debounce flag exactly as it was; if the detector was latched
before re-initialization, every post-init tick sequence whose levels
never rise strictly above the threshold leaves the freshly initialized
state completely unchanged, so the fresh lives are not decremented until
a strictly-above-threshold level first re-arms the detector. -/
theorem game_init_preserves_debounce_flag (s : GameState) (levels : List Nat)
    (hlatch : s.counting_flag ≠ 0) (hle : ∀ lv ∈ levels, lv ≤ IR_TRESHOLD) :
    (game_init s).1.counting_flag = s.counting_flag ∧
    (game_init s).1.score = 0 ∧
    (game_init s).1.lives_left = NUMBER_OF_LIVES ∧
    run_count_fails levels (game_init s).1 = (game_init s).1 := by
  refine ⟨rfl, rfl, rfl, ?_⟩
  exact run_count_fails_latched levels (game_init s).1 hlatch hle

/-- Witness for C10: re-initializing a latched state and then holding the
level at or below the threshold (500, exactly 1000, 999) keeps the fresh
three lives and the latched flag untouched. -/
theorem game_init_preserves_debounce_flag_witness :
    (game_init { sampleState with counting_flag := 1 }).1.counting_flag =
      ({ sampleState with counting_flag := 1 } : GameState).counting_flag ∧
    (game_init { sampleState with counting_flag := 1 }).1.score = 0 ∧
    (game_init { sampleState with counting_flag := 1 }).1.lives_left =
      NUMBER_OF_LIVES ∧
    run_count_fails [500, 1000, 999]
        (game_init { sampleState with counting_flag := 1 }).1 =
      (game_init { sampleState with counting_flag := 1 }).1 :=
  game_init_preserves_debounce_flag { sampleState with counting_flag := 1 }
    [500, 1000, 999] (by decide) (by decide)

/-- C3 counterexample: on a concrete armed, below-threshold tick in
slider mode the first capability call of the tick is the motor actuation
command; the failure-detection sensor read happens only as the fourth
call, after the whole mode dispatch, so failure detection is not
evaluated first, contrary to the claimed step order. -/
theorem game_run_detection_not_first :
    (game_run ⟨500, ACC_DIR.ACC_OTHER 0, 0⟩ sampleState).2 =
      [Effect.motorRunSlider 80, Effect.servoSetPosition 10,
       Effect.solenoidRunButton 1, Effect.adcRead 500,
       Effect.canSend ⟨GAME_LIVES_LEFT_ID, 1, 2⟩] ∧
    (game_run ⟨500, ACC_DIR.ACC_OTHER 0, 0⟩ sampleState).2.head? ≠
      some (Effect.adcRead 500) := by
  constructor
  · decide
  · decide

/-- C3 (amended): each tick performs, in order and without suspension:
(1) actuation dispatched by the current control mode (every effect before
the sensor read is an actuator command), (2) failure detection — the
single ADC read, present on every tick regardless of mode, (3) the
life-lost notification carrying the already-decremented `lives_left`
exactly when a qualifying failure was detected, and (4) the unconditional
score increment. -/
theorem game_run_actual_step_order (inp : TickInput) (s : GameState) :
    ∃ pre post,
      (game_run inp s).2 = pre ++ Effect.adcRead inp.ir_level :: post ∧
      (∀ e ∈ pre, e.isActuation = true) ∧
      ((game_count_fails inp.ir_level s).1 ≠ 0 →
        post = [Effect.canSend ⟨GAME_LIVES_LEFT_ID, 1,
          (game_count_fails inp.ir_level s).2.lives_left⟩]) ∧
      ((game_count_fails inp.ir_level s).1 = 0 → post = []) ∧
      (game_run inp s).1.score = (s.score + 1) % UINT32_MOD ∧
      (game_run inp s).1.lives_left =
        (game_count_fails inp.ir_level s).2.lives_left := by
  have hscore : (game_run inp s).1.score = (s.score + 1) % UINT32_MOD := by
    rw [game_run_fst]
    simp [game_count_fails_score]
  have hlives : (game_run inp s).1.lives_left =
      (game_count_fails inp.ir_level s).2.lives_left := by
    rw [game_run_fst]
  obtain ⟨pre, hpre, htrace⟩ : ∃ pre, (∀ e ∈ pre, Effect.isActuation e = true) ∧
      (game_run inp s).2 = pre ++ Effect.adcRead inp.ir_level ::
        (if (game_count_fails inp.ir_level s).1 ≠ 0 then
          [Effect.canSend ⟨GAME_LIVES_LEFT_ID, 1,
            (game_count_fails inp.ir_level s).2.lives_left⟩]
         else []) := by
    cases hc : s.controller_select with
    | SLIDER_POS_CTRL =>
        refine ⟨[Effect.motorRunSlider
            (if s.difficulty_select = DIFFICULTY.IMPOSSIBLE then
              SLIDER_MAX - s.user_data.slider_right
             else s.user_data.slider_right),
          Effect.servoSetPosition s.user_data.joystick_x,
          Effect.solenoidRunButton s.user_data.button_right], ?_, ?_⟩
        · intro e he
          simp only [List.mem_cons, List.not_mem_nil, or_false] at he
          rcases he with rfl | rfl | rfl <;> rfl
        · simp [game_run, hc]
    | JOYSTICK_SPEED_CTRL =>
        refine ⟨[Effect.motorRunJoystick
            (if s.difficulty_select = DIFFICULTY.IMPOSSIBLE then
              -s.user_data.joystick_x
             else s.user_data.joystick_x),
          Effect.servoSetPosition (2 * (s.user_data.slider_right - 50)),
          Effect.solenoidRunButton s.user_data.button_right], ?_, ?_⟩
        · intro e he
          simp only [List.mem_cons, List.not_mem_nil, or_false] at he
          rcases he with rfl | rfl | rfl <;> rfl
        · simp [game_run, hc]
    | MICROBIT_SPEED_CTRL =>
        refine ⟨[Effect.motorRunMicrobit
            (if s.difficulty_select = DIFFICULTY.IMPOSSIBLE then
              if inp.mb_direction = ACC_DIR.ACC_RIGHT then ACC_DIR.ACC_LEFT
              else if inp.mb_direction = ACC_DIR.ACC_LEFT then ACC_DIR.ACC_RIGHT
              else inp.mb_direction
             else inp.mb_direction),
          Effect.servoSetPosition s.user_data.joystick_x,
          Effect.solenoidRunButton inp.mb_button], ?_, ?_⟩
        · intro e he
          simp only [List.mem_cons, List.not_mem_nil, or_false] at he
          rcases he with rfl | rfl | rfl <;> rfl
        · simp [game_run, hc]
    | OTHER_CTRL n =>
        refine ⟨[], ?_, ?_⟩
        · intro e he
          simp at he
        · simp [game_run, hc]
  refine ⟨pre, _, htrace, hpre, fun h => by rw [if_pos h],
    fun h => by rw [if_neg (by simp [h])], hscore, hlives⟩

/-- C4: Impossible difficulty inverts the control uniformly in all three
modes, and no other difficulty value does: the slider-mode motor target
becomes `SLIDER_MAX - slider_right` instead of `slider_right`, the
joystick-mode motor speed is negated, and the accelerometer direction has
Left and Right swapped while any other direction value passes through
unchanged; under any difficulty other than Impossible the same inputs
command the uninverted target, speed and direction. -/
theorem game_impossible_inverts_controls (s : GameState) (inp : TickInput)
    (dd : DIFFICULTY) (hd : dd ≠ DIFFICULTY.IMPOSSIBLE) (n : Nat) :
    ((game_run inp (game_set_controller CONTROLLER_SEL.SLIDER_POS_CTRL
        (game_set_difficulty DIFFICULTY.IMPOSSIBLE s).1)).2.head? =
      some (Effect.motorRunSlider (SLIDER_MAX - s.user_data.slider_right))) ∧
    ((game_run inp (game_set_controller CONTROLLER_SEL.SLIDER_POS_CTRL
        (game_set_difficulty dd s).1)).2.head? =
      some (Effect.motorRunSlider s.user_data.slider_right)) ∧
    ((game_run inp (game_set_controller CONTROLLER_SEL.JOYSTICK_SPEED_CTRL
        (game_set_difficulty DIFFICULTY.IMPOSSIBLE s).1)).2.head? =
      some (Effect.motorRunJoystick (-s.user_data.joystick_x))) ∧
    ((game_run inp (game_set_controller CONTROLLER_SEL.JOYSTICK_SPEED_CTRL
        (game_set_difficulty dd s).1)).2.head? =
      some (Effect.motorRunJoystick s.user_data.joystick_x)) ∧
    ((game_run ⟨inp.ir_level, ACC_DIR.ACC_LEFT, inp.mb_button⟩
        (game_set_controller CONTROLLER_SEL.MICROBIT_SPEED_CTRL
          (game_set_difficulty DIFFICULTY.IMPOSSIBLE s).1)).2.head? =
      some (Effect.motorRunMicrobit ACC_DIR.ACC_RIGHT)) ∧
    ((game_run ⟨inp.ir_level, ACC_DIR.ACC_RIGHT, inp.mb_button⟩
        (game_set_controller CONTROLLER_SEL.MICROBIT_SPEED_CTRL
          (game_set_difficulty DIFFICULTY.IMPOSSIBLE s).1)).2.head? =
      some (Effect.motorRunMicrobit ACC_DIR.ACC_LEFT)) ∧
    ((game_run ⟨inp.ir_level, ACC_DIR.ACC_OTHER n, inp.mb_button⟩
        (game_set_controller CONTROLLER_SEL.MICROBIT_SPEED_CTRL
          (game_set_difficulty DIFFICULTY.IMPOSSIBLE s).1)).2.head? =
      some (Effect.motorRunMicrobit (ACC_DIR.ACC_OTHER n))) ∧
    ((game_run inp (game_set_controller CONTROLLER_SEL.MICROBIT_SPEED_CTRL
        (game_set_difficulty dd s).1)).2.head? =
      some (Effect.motorRunMicrobit inp.mb_direction)) := by
  refine ⟨?_, ?_, ?_, ?_, ?_, ?_, ?_, ?_⟩ <;>
    simp [game_run, game_set_controller, game_set_difficulty, hd]

/-- Witness for C4: with difficulty Hard (not Impossible) as the
comparison value and the sample snapshot, the slider-mode motor target
under Impossible is the inverted value 100 - 80. -/
theorem game_impossible_inverts_controls_witness :
    (game_run ⟨1500, ACC_DIR.ACC_LEFT, 0⟩
      (game_set_controller CONTROLLER_SEL.SLIDER_POS_CTRL
        (game_set_difficulty DIFFICULTY.IMPOSSIBLE sampleState).1)).2.head? =
      some (Effect.motorRunSlider (SLIDER_MAX - sampleState.user_data.slider_right)) :=
  (game_impossible_inverts_controls sampleState ⟨1500, ACC_DIR.ACC_LEFT, 0⟩
    DIFFICULTY.HARD (by decide) 7).1

end Byggern
